import Mathlib

/-!
Verification development for the calendar merge and event-normalisation core
of the hours-tracker / calendar dashboard (`app.py`).

The Python source is shallowly embedded:

* icalendar `Calendar` documents become the `VCalendar` structure (top-level
  properties plus the list of `VEVENT` components found by `Calendar.walk()`);
  a `VEVENT` component becomes `VEvent`.  A property added twice via
  `Component.add` becomes a multi-valued property, which we model for the one
  property the program stacks (`X-SOURCE`) as a `List String`.
* Timestamp values (`vDDDTypes.dt`) are either a `datetime.date` or a
  `datetime.datetime`; we model them as `DTValue`: a date is a day ordinal,
  a datetime is a wall-clock value in minutes together with an optional fixed
  UTC offset in minutes (`none` = naive).  The process-local time zone is a
  fixed offset `localOff` passed explicitly.
* The calendar directory is a listing `List (String × Option VCalendar)`:
  file name paired with the parse outcome of its bytes (`none` models a file
  whose bytes make `Calendar.from_ical` raise, i.e. a malformed feed).
  Serialising a calendar with `to_ical` and re-parsing it is modelled as the
  identity on `VCalendar` (the library round-trips components and adds no
  generation metadata).
* Python machine-level operations (`str.lower`, `str.replace`, substring
  tests, MD5) are re-implemented over `List Char` / `Nat` so that every
  definition evaluates inside the kernel.
-/

namespace Planner

/-! ### String helpers (Python `str` operations, ASCII data) -/

/-- `listStartsWith hay needle` is true when `needle` is an initial segment of
`hay` (the building block for Python's substring test). -/
def listStartsWith : List Char → List Char → Bool
  | _, [] => true
  | [], _ :: _ => false
  | a :: as, b :: bs => a == b && listStartsWith as bs

/-- Python `needle in hay` (substring containment, `'' in s` is true). -/
def listHasSub : List Char → List Char → Bool
  | [], needle => listStartsWith [] needle
  | c :: t, needle => listStartsWith (c :: t) needle || listHasSub t needle

/-- Python `s.lower()` restricted to ASCII, which is all the program uses. -/
def lowerStr (s : String) : String := String.mk (s.toList.map Char.toLower)

/-- Python `f.endswith(".ics")` (app.py line 112). -/
def endsWithIcs (f : String) : Bool :=
  listStartsWith f.toList.reverse ['s', 'c', 'i', '.']

/-- Python `filename.replace(".ics", "")` scans left to right and removes
every (non-overlapping) occurrence of `".ics"` (app.py line 131). -/
def replaceIcs : List Char → List Char
  | '.' :: 'i' :: 'c' :: 's' :: rest => replaceIcs rest
  | c :: rest => c :: replaceIcs rest
  | [] => []

/-- Source label of a calendar file: `filename.replace('.ics', '')`. -/
def sourceNameOf (filename : String) : String := String.mk (replaceIcs filename.toList)

/-! ### MD5 (`hashlib.md5`, app.py lines 88-92)

32-bit words are `Nat` values kept below `2 ^ 32` by explicit `% w32`. -/

/-- `2 ^ 32`, the word modulus of MD5. -/
def w32 : Nat := 4294967296

/-- Left rotation of a 32-bit word. -/
def rotl32 (x n : Nat) : Nat := ((x <<< n) % w32) ||| (x >>> (32 - n))

/-- The 64 MD5 sine-derived round constants (RFC 1321). -/
def md5K : List Nat :=
  [0xd76aa478, 0xe8c7b756, 0x242070db, 0xc1bdceee,
   0xf57c0faf, 0x4787c62a, 0xa8304613, 0xfd469501,
   0x698098d8, 0x8b44f7af, 0xffff5bb1, 0x895cd7be,
   0x6b901122, 0xfd987193, 0xa679438e, 0x49b40821,
   0xf61e2562, 0xc040b340, 0x265e5a51, 0xe9b6c7aa,
   0xd62f105d, 0x02441453, 0xd8a1e681, 0xe7d3fbc8,
   0x21e1cde6, 0xc33707d6, 0xf4d50d87, 0x455a14ed,
   0xa9e3e905, 0xfcefa3f8, 0x676f02d9, 0x8d2a4c8a,
   0xfffa3942, 0x8771f681, 0x6d9d6122, 0xfde5380c,
   0xa4beea44, 0x4bdecfa9, 0xf6bb4b60, 0xbebfbc70,
   0x289b7ec6, 0xeaa127fa, 0xd4ef3085, 0x04881d05,
   0xd9d4d039, 0xe6db99e5, 0x1fa27cf8, 0xc4ac5665,
   0xf4292244, 0x432aff97, 0xab9423a7, 0xfc93a039,
   0x655b59c3, 0x8f0ccc92, 0xffeff47d, 0x85845dd1,
   0x6fa87e4f, 0xfe2ce6e0, 0xa3014314, 0x4e0811a1,
   0xf7537e82, 0xbd3af235, 0x2ad7d2bb, 0xeb86d391]

/-- The 64 MD5 per-round left-rotation amounts. -/
def md5S : List Nat :=
  [7, 12, 17, 22, 7, 12, 17, 22, 7, 12, 17, 22, 7, 12, 17, 22,
   5, 9, 14, 20, 5, 9, 14, 20, 5, 9, 14, 20, 5, 9, 14, 20,
   4, 11, 16, 23, 4, 11, 16, 23, 4, 11, 16, 23, 4, 11, 16, 23,
   6, 10, 15, 21, 6, 10, 15, 21, 6, 10, 15, 21, 6, 10, 15, 21]

/-- Message-word index used by MD5 operation `i`. -/
def md5G (i : Nat) : Nat :=
  if i < 16 then i
  else if i < 32 then (5 * i + 1) % 16
  else if i < 48 then (3 * i + 5) % 16
  else (7 * i) % 16

/-- The MD5 mixing function of round `i / 16` (complement is xor with
`2 ^ 32 - 1`, sound because all inputs stay below `2 ^ 32`). -/
def md5F (i b c d : Nat) : Nat :=
  if i < 16 then (b &&& c) ||| ((b ^^^ 4294967295) &&& d)
  else if i < 32 then (d &&& b) ||| ((d ^^^ 4294967295) &&& c)
  else if i < 48 then b ^^^ c ^^^ d
  else c ^^^ (b ||| (d ^^^ 4294967295))

/-- Assemble consecutive byte quadruples into little-endian 32-bit words. -/
def bytesToWordsLE : List Nat → List Nat
  | b0 :: b1 :: b2 :: b3 :: rest =>
    (b0 + 256 * b1 + 65536 * b2 + 16777216 * b3) :: bytesToWordsLE rest
  | _ => []

/-- One MD5 operation on the running `(A, B, C, D)` state. -/
def md5Step (M : List Nat) (abcd : Nat × Nat × Nat × Nat) (i : Nat) :
    Nat × Nat × Nat × Nat :=
  let a := abcd.1
  let b := abcd.2.1
  let c := abcd.2.2.1
  let d := abcd.2.2.2
  let f := (md5F i b c d + a + md5K.getD i 0 + M.getD (md5G i) 0) % w32
  (d, (b + rotl32 f (md5S.getD i 0)) % w32, b, c)

/-- Process one 64-byte chunk. -/
def md5Chunk (st : Nat × Nat × Nat × Nat) (chunk : List Nat) :
    Nat × Nat × Nat × Nat :=
  let M := bytesToWordsLE chunk
  let r := (List.range 64).foldl (md5Step M) st
  ((st.1 + r.1) % w32, (st.2.1 + r.2.1) % w32,
   (st.2.2.1 + r.2.2.1) % w32, (st.2.2.2 + r.2.2.2) % w32)

/-- Split a byte list into 64-byte chunks. -/
def chunks64 (l : List Nat) : List (List Nat) :=
  match l with
  | [] => []
  | c :: t => (c :: t).take 64 :: chunks64 ((c :: t).drop 64)
termination_by l.length
decreasing_by simp [List.length_drop]; omega

/-- `count` little-endian bytes of `n`. -/
def leBytes (n : Nat) : Nat → List Nat
  | 0 => []
  | k + 1 => n % 256 :: leBytes (n / 256) k

/-- MD5 padding: a `0x80` byte, zeros to 56 mod 64, then the bit length as
eight little-endian bytes. -/
def md5Pad (msg : List Nat) : List Nat :=
  msg ++ [128] ++ List.replicate ((119 - msg.length % 64) % 64) 0
      ++ leBytes (8 * msg.length) 8

/-- Lowercase hexadecimal digit. -/
def hexChar (n : Nat) : Char :=
  if n < 10 then Char.ofNat (48 + n) else Char.ofNat (87 + n)

/-- Two lowercase hex digits of a byte. -/
def byteHex (b : Nat) : List Char := [hexChar (b / 16), hexChar (b % 16)]

/-- Hex rendering of a 32-bit word, least significant byte first, as in an
MD5 digest. -/
def wordHexLE (w : Nat) : List Char :=
  byteHex (w % 256) ++ byteHex (w / 256 % 256) ++
    byteHex (w / 65536 % 256) ++ byteHex (w / 16777216 % 256)

/-- `hashlib.md5(bytes).hexdigest()`. -/
def md5Hex (msg : List Nat) : String :=
  let r := (chunks64 (md5Pad msg)).foldl md5Chunk
    (0x67452301, 0xefcdab89, 0x98badcfe, 0x10325476)
  String.mk (wordHexLE r.1 ++ wordHexLE r.2.1 ++ wordHexLE r.2.2.1 ++ wordHexLE r.2.2.2)

/-- UTF-8 bytes of one code point (Python `str.encode()`). -/
def utf8Bytes (c : Char) : List Nat :=
  let n := c.toNat
  if n < 128 then [n]
  else if n < 2048 then [192 + n / 64, 128 + n % 64]
  else if n < 65536 then [224 + n / 4096, 128 + n / 64 % 64, 128 + n % 64]
  else [240 + n / 262144, 128 + n / 4096 % 64, 128 + n / 64 % 64, 128 + n % 64]

/-- Concatenate a list of byte lists. -/
def catBytes : List (List Nat) → List Nat
  | [] => []
  | l :: ls => l ++ catBytes ls

/-- Python `source.encode()` (UTF-8). -/
def strBytes (s : String) : List Nat := catBytes (s.toList.map utf8Bytes)

/-! ### `get_source_color` (app.py lines 69-93) -/

/-- The predefined color table for common sources (app.py lines 72-79).
Python dicts iterate in insertion order, so an association list is exact. -/
def color_map : List (String × String) :=
  [("gmail", "#EA4335"), ("google", "#EA4335"), ("samsung", "#1428A0"),
   ("outlook", "#0078D4"), ("apple", "#555555"), ("icloud", "#555555")]

/-- The keyword scan of app.py lines 83-85: first table entry whose key is a
substring of the lowered source name. -/
def findKeywordColor (source_lower : String) : List (String × String) → Option String
  | [] => none
  | (key, color) :: rest =>
    if listHasSub source_lower.toList key.toList then some color
    else findKeywordColor source_lower rest

/-- `get_source_color` (app.py lines 69-93): keyword table first, otherwise
`"#"` followed by the first six hex digits of the MD5 of the label. -/
def get_source_color (source : String) : String :=
  let source_lower := lowerStr source
  match findKeywordColor source_lower color_map with
  | some color => color
  | none => "#" ++ String.mk ((md5Hex (strBytes source)).toList.take 6)

/-! ### The icalendar document model -/

/-- The value of a `DTSTART` / `DTEND` property (`vDDDTypes.dt`): either a
`datetime.date` (day ordinal) or a `datetime.datetime` (wall-clock minutes
together with an optional fixed UTC offset in minutes; `none` is naive). -/
inductive DTValue where
  | date (day : Int)
  | dateTime (wall : Int) (tzOffset : Option Int)
  deriving DecidableEq, Repr

/-- A `VEVENT` component: the properties the program reads.  `X-SOURCE` is
multi-valued because `Component.add` appends (a repeated add yields a list);
`[]` means the property is absent. -/
structure VEvent where
  dtstart : Option DTValue
  dtend : Option DTValue
  summary : Option String
  xsource : List String
  deriving DecidableEq, Repr

/-- A parsed calendar document: top-level properties (key-value pairs, as
copied by app.py lines 139-141) and the `VEVENT` components that
`Calendar.walk()` finds, in document order. -/
structure VCalendar where
  props : List (String × String)
  events : List VEvent
  deriving DecidableEq, Repr

/-! ### The merge (app.py lines 108-161) -/

/-- Result of `merge_all_ics_files`: the returned triple plus the warnings
surfaced via `st.warning` and the content written to `OUTPUT_FILE`
(`none` when no write happened). -/
structure MergeResult where
  cal : Option VCalendar
  success : Bool
  message : String
  warnings : List String
  written : Option VCalendar
  deriving DecidableEq, Repr

/-- `get_all_ics_files` (app.py lines 108-112) applied to the directory
listing: keep names ending in `.ics` other than `merged_output.ics`. -/
def get_all_ics_files (names : List String) : List String :=
  names.filter (fun f => endsWithIcs f && !(f == "merged_output.ics"))

/-- Reading and parsing one file of the directory (app.py lines 134-135):
`none` when opening or `Calendar.from_ical` raises. -/
def readFile (dir : List (String × Option VCalendar)) (filename : String) :
    Option VCalendar :=
  (dir.lookup filename).join

/-- `component.add('X-SOURCE', source_name)` (app.py line 147): appends one
more value to the (possibly already present) `X-SOURCE` property. -/
def tagEvent (source_name : String) (e : VEvent) : VEvent :=
  { e with xsource := e.xsource ++ [source_name] }

/-- The loop state of app.py lines 126-152. -/
structure MergeState where
  props : List (String × String)
  events : List VEvent
  first_file : Bool
  warnings : List String
  deriving Repr

/-- One iteration of the merge loop (app.py lines 127-152): an unreadable
file adds a warning and is skipped; a parsed file contributes its top-level
properties if it is the first successful one, and its events tagged with the
source label. -/
def mergeStep (dir : List (String × Option VCalendar)) (s : MergeState)
    (filename : String) : MergeState :=
  let source_name := sourceNameOf filename
  match readFile dir filename with
  | none => { s with warnings := s.warnings ++ [filename] }
  | some cal =>
    let s1 := if s.first_file then
        { s with props := cal.props, first_file := false }
      else s
    { s1 with events := s1.events ++ cal.events.map (tagEvent source_name) }

/-- The success message of app.py line 158 (an f-string over the number of
`.ics` files that were considered). -/
def successMessage (n : Nat) : String :=
  "Successfully merged " ++ toString n ++ " calendar file(s)"

/-- `merge_all_ics_files` (app.py lines 114-161) over a directory listing. -/
def merge_all_ics_files (dir : List (String × Option VCalendar)) : MergeResult :=
  let ics_files := get_all_ics_files (dir.map Prod.fst)
  if ics_files.length = 0 then
    { cal := none, success := false, message := "No .ics files found",
      warnings := [], written := none }
  else
    let st := ics_files.foldl (mergeStep dir)
      { props := [], events := [], first_file := true, warnings := [] }
    let merged : VCalendar := { props := st.props, events := st.events }
    { cal := some merged, success := true,
      message := successMessage ics_files.length,
      warnings := st.warnings, written := some merged }

/-- The content of `OUTPUT_FILE` after a merge run, given its previous
content: overwritten exactly when the merge wrote. -/
def outputFileAfter (prev : Option VCalendar) (r : MergeResult) :
    Option VCalendar :=
  match r.written with
  | some c => some c
  | none => prev

/-! ### `extract_events` (app.py lines 163-217) -/

/-- One normalised event record as built by `extract_events` (the dict of
app.py lines 210-216; the Python key `end` is spelled `end_` because `end`
is a Lean keyword). -/
structure NormEvent where
  start : DTValue
  end_ : DTValue
  summary : String
  is_allday : Bool
  source : String
  deriving DecidableEq, Repr

/-- Models Python `str()` applied to a multi-valued icalendar property (the
degenerate case where `X-SOURCE` was added more than once; the program never
renders this string, an injective stand-in for the library repr is enough). -/
def multiSourceText (ss : List String) : String :=
  "[" ++ String.intercalate ", " (ss.map (fun s => "vText(" ++ s ++ ")")) ++ "]"

/-- `str(component.get('X-SOURCE', 'unknown'))` (app.py line 180). -/
def sourceText (e : VEvent) : String :=
  match e.xsource with
  | [] => "unknown"
  | [s] => s
  | ss => multiSourceText ss

/-- Whether a `vDDDTypes.dt` value is a `datetime.datetime`. -/
def isDateTimeDT : DTValue → Bool
  | DTValue.dateTime _ _ => true
  | DTValue.date _ => false

/-- Time-zone normalisation of app.py lines 193-199 / 202-208 for one
datetime value, with the process-local zone as a fixed offset `localOff`:
a naive value is localised (wall clock kept), an aware value in another zone
is converted.  Dates are untouched. -/
def localizeDT (localOff : Int) : DTValue → DTValue
  | DTValue.date d => DTValue.date d
  | DTValue.dateTime wall none => DTValue.dateTime wall (some localOff)
  | DTValue.dateTime wall (some o) =>
    if o = localOff then DTValue.dateTime wall (some o)
    else DTValue.dateTime (wall - o + localOff) (some localOff)

/-- `extract_events` (app.py lines 163-217): walk the events, skip any
record missing `dtstart` or `dtend` (line 182-183), classify all-day
records, normalise datetimes to the local zone. -/
def extract_events (localOff : Int) (calendar : VCalendar) : List NormEvent :=
  calendar.events.filterMap (fun component =>
    match component.dtstart, component.dtend with
    | some ds, some de =>
      some { start := if isDateTimeDT ds then localizeDT localOff ds else ds,
             end_ := if isDateTimeDT de then localizeDT localOff de else de,
             summary := component.summary.getD "No Title",
             is_allday := !(isDateTimeDT ds),
             source := sourceText component }
    | _, _ => none)

/-! ### The weekly calendar view (app.py lines 847-886) -/

/-- `event_date` of app.py line 851: the (local) calendar day of the start
value — `start.date()` for datetimes, the date itself otherwise. -/
def eventDate (e : NormEvent) : Int :=
  match e.start with
  | DTValue.date d => d
  | DTValue.dateTime wall _ => wall.fdiv 1440

/-- The second sort-key component of app.py line 858:
`x['start'].time() if isinstance(x['start'], datetime) else datetime.min.time()`
in minutes of the day. -/
def sortMinutes (e : NormEvent) : Int :=
  match e.start with
  | DTValue.dateTime wall _ => wall.emod 1440
  | DTValue.date _ => 0

/-- The first sort-key component of app.py line 857, `not x['is_allday']`,
with Python's `False < True` rendered as `0 < 1`. -/
def sortKeyFst (e : NormEvent) : Nat := if e.is_allday then 0 else 1

/-- Python's ascending comparison of the sort-key tuples of app.py
lines 856-859. -/
def dayLE (a b : NormEvent) : Bool :=
  decide (sortKeyFst a < sortKeyFst b ∨
    (sortKeyFst a = sortKeyFst b ∧ sortMinutes a ≤ sortMinutes b))

/-- The day bucket of the weekly view (app.py lines 849-859): the events of
the given calendar day, stably sorted by `(not all-day, time-of-day)`.
`List.mergeSort` is a stable sort, as is Python's `list.sort`. -/
def dayBucket (events : List NormEvent) (day : Int) : List NormEvent :=
  (events.filter (fun e => decide (eventDate e = day))).mergeSort dayLE

/-! ### Event rendering (app.py lines 874-879) -/

/-- Two-digit rendering of a (non-negative) number, as `strftime` pads. -/
def pad2 (n : Int) : String := (if n < 10 then "0" else "") ++ toString n

/-- `strftime("%H:%M")` of a wall-clock value given in minutes of the day. -/
def fmtHM (m : Int) : String := pad2 (m / 60) ++ ":" ++ pad2 (m % 60)

/-- The start-time text of app.py line 877 (a `datetime.date` also has
`strftime`, where `%H:%M` renders as midnight). -/
def startTimeStr (e : NormEvent) : String :=
  match e.start with
  | DTValue.dateTime wall _ => fmtHM (wall.emod 1440)
  | DTValue.date _ => "00:00"

/-- The end-time text of app.py line 878:
`e['end'].strftime("%H:%M") if isinstance(e['end'], datetime) else "??"`. -/
def endTimeStr (e : NormEvent) : String :=
  match e.end_ with
  | DTValue.dateTime wall _ => fmtHM (wall.emod 1440)
  | DTValue.date _ => "??"

/-- The full `time_str` of app.py lines 874-879. -/
def timeStr (e : NormEvent) : String :=
  if e.is_allday then "🕗 All-day"
  else "🕒 " ++ startTimeStr e ++ " - " ++ endTimeStr e

/-! ### Derived vocabulary used by the theorem statements -/

/-- The events one directory entry contributes to the merge: its parsed
events tagged with its source label, nothing for an unreadable file. -/
def fileEvents (dir : List (String × Option VCalendar)) (f : String) :
    List VEvent :=
  match readFile dir f with
  | some cal => cal.events.map (tagEvent (sourceNameOf f))
  | none => []

/-- The warning one directory entry contributes: its file name when the
file cannot be read or parsed. -/
def fileWarn (dir : List (String × Option VCalendar)) (f : String) :
    List String :=
  match readFile dir f with
  | some _ => []
  | none => [f]

/-- Concatenation of a list of lists. -/
def catLists {α : Type} : List (List α) → List α
  | [] => []
  | l :: ls => l ++ catLists ls

/-- Modelled from the spec: "the count of sources successfully merged" —
the number of considered `.ics` files whose bytes parse.  (The code itself
never computes this; the definition exists to compare the success message
against the spec's words.) -/
def specSuccessfulCount (dir : List (String × Option VCalendar)) : Nat :=
  ((get_all_ics_files (dir.map Prod.fst)).filter
    (fun f => (readFile dir f).isSome)).length

/-- Does an event record carry both `dtstart` and `dtend`?  (The admission
test of app.py lines 182-183.) -/
def hasBothFields (c : VEvent) : Bool := c.dtstart.isSome && c.dtend.isSome

/-- What `extract_events` produces for one admitted event record of a source
with label `label` (the per-event composite of tagging plus normalisation;
the second branch is junk that is never reached under `hasBothFields`). -/
def normalizeTagged (localOff : Int) (label : String) (c : VEvent) : NormEvent :=
  match c.dtstart, c.dtend with
  | some ds, some de =>
    { start := if isDateTimeDT ds then localizeDT localOff ds else ds,
      end_ := if isDateTimeDT de then localizeDT localOff de else de,
      summary := c.summary.getD "No Title",
      is_allday := !(isDateTimeDT ds),
      source := sourceText (tagEvent label c) }
  | _, _ =>
    { start := DTValue.date 0, end_ := DTValue.date 0, summary := "",
      is_allday := true, source := "" }

/-- The ordering the weekly view promises inside one day bucket: an event
that is not all-day is followed only by non-all-day events with a start
time at least as late. -/
def dayOrder (a b : NormEvent) : Prop :=
  a.is_allday = false → (b.is_allday = false ∧ sortMinutes a ≤ sortMinutes b)

/-! ### Helper lemmas -/

theorem catLists_length {α : Type} (ls : List (List α)) :
    (catLists ls).length = (ls.map List.length).sum := by
  induction ls with
  | nil => rfl
  | cons l ls ih => simp [catLists, ih]

theorem mem_catLists {α : Type} {a : α} {l : List α} {ls : List (List α)}
    (hl : l ∈ ls) (ha : a ∈ l) : a ∈ catLists ls := by
  induction ls with
  | nil => cases hl
  | cons x xs ih =>
    rcases List.mem_cons.1 hl with h | h
    · subst h; exact List.mem_append_left _ ha
    · exact List.mem_append_right _ (ih h)

theorem mergeStep_events (dir : List (String × Option VCalendar))
    (s : MergeState) (f : String) :
    (mergeStep dir s f).events = s.events ++ fileEvents dir f := by
  cases hr : readFile dir f with
  | none => simp [mergeStep, fileEvents, hr]
  | some cal =>
    cases hf : s.first_file <;> simp [mergeStep, fileEvents, hr, hf]

theorem mergeStep_warnings (dir : List (String × Option VCalendar))
    (s : MergeState) (f : String) :
    (mergeStep dir s f).warnings = s.warnings ++ fileWarn dir f := by
  cases hr : readFile dir f with
  | none => simp [mergeStep, fileWarn, hr]
  | some cal =>
    cases hf : s.first_file <;> simp [mergeStep, fileWarn, hr, hf]

theorem foldl_mergeStep_events (dir : List (String × Option VCalendar))
    (files : List String) (s : MergeState) :
    (files.foldl (mergeStep dir) s).events =
      s.events ++ catLists (files.map (fileEvents dir)) := by
  induction files generalizing s with
  | nil => simp [catLists]
  | cons f t ih =>
    simp [List.foldl_cons, ih, mergeStep_events, catLists, List.append_assoc]

theorem foldl_mergeStep_warnings (dir : List (String × Option VCalendar))
    (files : List String) (s : MergeState) :
    (files.foldl (mergeStep dir) s).warnings =
      s.warnings ++ catLists (files.map (fileWarn dir)) := by
  induction files generalizing s with
  | nil => simp [catLists]
  | cons f t ih =>
    simp [List.foldl_cons, ih, mergeStep_warnings, catLists, List.append_assoc]

theorem catLists_fileWarn (dir : List (String × Option VCalendar))
    (files : List String) :
    catLists (files.map (fileWarn dir)) =
      files.filter (fun f => (readFile dir f).isNone) := by
  induction files with
  | nil => rfl
  | cons f t ih =>
    cases hr : readFile dir f <;>
      simp [catLists, fileWarn, hr, List.filter_cons, ih]

/-- Characterisation of a merge run over at least one considered file. -/
theorem merge_run (dir : List (String × Option VCalendar))
    (h : get_all_ics_files (dir.map Prod.fst) ≠ []) :
    (merge_all_ics_files dir).success = true ∧
    (merge_all_ics_files dir).message =
      successMessage (get_all_ics_files (dir.map Prod.fst)).length ∧
    (merge_all_ics_files dir).warnings =
      (get_all_ics_files (dir.map Prod.fst)).filter
        (fun f => (readFile dir f).isNone) ∧
    ∃ m, (merge_all_ics_files dir).cal = some m ∧
      (merge_all_ics_files dir).written = some m ∧
      m.events =
        catLists ((get_all_ics_files (dir.map Prod.fst)).map (fileEvents dir)) := by
  have hlen : ¬ (get_all_ics_files (dir.map Prod.fst)).length = 0 := by
    simpa [List.length_eq_zero] using h
  unfold merge_all_ics_files
  rw [if_neg hlen]
  dsimp only
  refine ⟨rfl, rfl, ?_, ⟨_, rfl, rfl, ?_⟩⟩
  · rw [foldl_mergeStep_warnings, catLists_fileWarn]
    rfl
  · rw [foldl_mergeStep_events]
    rfl

/-- A merge over a single parseable source file: the aggregate takes that
file's properties and its events tagged with the file's label. -/
theorem merge_single (fn : String) (cal : VCalendar)
    (hfn : (endsWithIcs fn && !(fn == "merged_output.ics")) = true) :
    merge_all_ics_files [(fn, some cal)] =
      { cal := some ⟨cal.props, cal.events.map (tagEvent (sourceNameOf fn))⟩,
        success := true, message := successMessage 1, warnings := [],
        written := some ⟨cal.props, cal.events.map (tagEvent (sourceNameOf fn))⟩ } := by
  simp [merge_all_ics_files, get_all_ics_files, List.filter_cons, hfn,
    mergeStep, readFile, List.lookup]

/-- What `extract_events` does to a list of uniformly tagged events: keep
exactly the records carrying both timestamps, normalised. -/
theorem extract_events_map_tag (localOff : Int) (label : String)
    (props : List (String × String)) (evs : List VEvent) :
    extract_events localOff ⟨props, evs.map (tagEvent label)⟩ =
      (evs.filter hasBothFields).map (normalizeTagged localOff label) := by
  induction evs with
  | nil => rfl
  | cons c t ih =>
    cases hds : c.dtstart <;> cases hde : c.dtend <;>
      simp_all [extract_events, hasBothFields, normalizeTagged, tagEvent,
        List.filter_cons]

theorem dayLE_trans (a b c : NormEvent) (h1 : dayLE a b = true)
    (h2 : dayLE b c = true) : dayLE a c = true := by
  simp only [dayLE, decide_eq_true_eq] at h1 h2 ⊢
  omega

theorem dayLE_total (a b : NormEvent) : (dayLE a b || dayLE b a) = true := by
  simp only [dayLE, Bool.or_eq_true, decide_eq_true_eq]
  omega

/-! ### Concrete fixtures used by counterexamples and witnesses -/

/-- A parseable source with one timed event. -/
def calA : VCalendar :=
  ⟨[("PRODID", "calendarA")],
   [⟨some (DTValue.dateTime 540 (some 0)), some (DTValue.dateTime 600 (some 0)),
     some "Meeting", []⟩]⟩

/-- A parseable source with one all-day event. -/
def calB : VCalendar :=
  ⟨[("PRODID", "calendarB")],
   [⟨some (DTValue.date 19700), some (DTValue.date 19701), some "Holiday", []⟩]⟩

/-- A directory holding the two parseable sources A and B. -/
def dirAB : List (String × Option VCalendar) :=
  [("a.ics", some calA), ("b.ics", some calB)]

/-- The merged calendar of the sources A and B. -/
def mergedAB : VCalendar := ((merge_all_ics_files dirAB).cal).getD ⟨[], []⟩

/-- The merge of the serialised-and-reparsed merged calendar as the sole
source (serialisation round-trips to the same document in the model). -/
def remergedAB : VCalendar :=
  ((merge_all_ics_files [("roundtrip.ics", some mergedAB)]).cal).getD ⟨[], []⟩

/-- A directory with one parseable and one malformed source. -/
def dirOneBad : List (String × Option VCalendar) :=
  [("good.ics", some calA), ("bad.ics", none)]

/-- A directory with two sources that contain identical events. -/
def dirTwins : List (String × Option VCalendar) :=
  [("s1.ics", some calA), ("s2.ics", some calA)]

/-- A feed holding two valid event records around one lacking `dtend`. -/
def calFeed : VCalendar :=
  ⟨[("PRODID", "feed")],
   [⟨some (DTValue.dateTime 540 (some 0)), some (DTValue.dateTime 600 (some 0)),
     some "A", []⟩,
    ⟨some (DTValue.dateTime 700 (some 0)), none, some "B", []⟩,
    ⟨some (DTValue.date 19700), some (DTValue.date 19701), none, []⟩]⟩

/-- The record of `calFeed` that lacks `dtend`. -/
def evBad : VEvent := ⟨some (DTValue.dateTime 700 (some 0)), none, some "B", []⟩

/-- A displayed (non-all-day) event whose `end` is a bare date. -/
def evDateEnd : NormEvent :=
  { start := DTValue.dateTime (19700 * 1440 + 540) (some 0),
    end_ := DTValue.date 19701, summary := "Trip", is_allday := false,
    source := "work" }

/-- Sample events for the weekly-view witness: one all-day and two timed
events on day 19700, the timed ones listed out of order. -/
def eventsSample : List NormEvent :=
  [{ start := DTValue.dateTime (19700 * 1440 + 840) (some 0),
     end_ := DTValue.dateTime (19700 * 1440 + 900) (some 0),
     summary := "Late", is_allday := false, source := "a" },
   { start := DTValue.date 19700, end_ := DTValue.date 19701,
     summary := "AllDay", is_allday := true, source := "b" },
   { start := DTValue.dateTime (19700 * 1440 + 540) (some 0),
     end_ := DTValue.dateTime (19700 * 1440 + 600) (some 0),
     summary := "Early", is_allday := false, source := "a" }]

/-! ### C1 — round-trip fidelity of the merge -/

/-- C1 counterexample: merging the sources A and B, serialising, re-parsing
and merging the result as the sole source does NOT reproduce the same set of
events with the same source tags — the re-merge stamps every event with a
second `X-SOURCE` value (the new file's label), so no re-merged event equals
any original event by value. -/
theorem c1_roundtrip_counterexample :
    (merge_all_ics_files dirAB).cal = some mergedAB ∧
    (merge_all_ics_files [("roundtrip.ics", some mergedAB)]).cal = some remergedAB ∧
    remergedAB.events ≠ mergedAB.events ∧
    remergedAB.events.all (fun e => !(mergedAB.events.contains e)) = true ∧
    mergedAB.events.map (fun e => e.xsource) = [["a"], ["b"]] ∧
    remergedAB.events.map (fun e => e.xsource) = [["a", "roundtrip"], ["b", "roundtrip"]] := by
  decide

/-- C1 (amended): re-parsing the serialised merge and merging it as the sole
source preserves the calendar properties and every event's payload and
original `X-SOURCE` values, but appends the new file's label as one more
`X-SOURCE` value to every event — so the event sets agree only up to that
extra tag, not by value. -/
theorem c1_roundtrip_amended (dir : List (String × Option VCalendar))
    (fn : String) (m : VCalendar)
    (hfn : (endsWithIcs fn && !(fn == "merged_output.ics")) = true)
    (hm : (merge_all_ics_files dir).cal = some m) :
    ∃ m2, (merge_all_ics_files [(fn, some m)]).cal = some m2 ∧
      m2.props = m.props ∧
      m2.events = m.events.map (tagEvent (sourceNameOf fn)) := by
  refine ⟨⟨m.props, m.events.map (tagEvent (sourceNameOf fn))⟩, ?_, rfl, rfl⟩
  rw [merge_single fn m hfn]

theorem c1_roundtrip_amended_witness :
    ((endsWithIcs "roundtrip.ics" && !("roundtrip.ics" == "merged_output.ics")) = true) ∧
    (merge_all_ics_files dirAB).cal = some mergedAB ∧
    (∃ m2, (merge_all_ics_files [("roundtrip.ics", some mergedAB)]).cal = some m2 ∧
      m2.props = mergedAB.props ∧
      m2.events = mergedAB.events.map (tagEvent (sourceNameOf "roundtrip.ics"))) :=
  ⟨by decide, by decide,
   c1_roundtrip_amended dirAB "roundtrip.ics" mergedAB (by decide) (by decide)⟩

/-! ### C2 — zero sources: failure message, no write -/

/-- C2: when no source feed is available the merge returns a failure with
the "No .ics files found" message and performs no write, so any previously
written merged output is unchanged. -/
theorem c2_no_sources_no_write (dir : List (String × Option VCalendar))
    (prev : Option VCalendar)
    (h : get_all_ics_files (dir.map Prod.fst) = []) :
    (merge_all_ics_files dir).cal = none ∧
    (merge_all_ics_files dir).success = false ∧
    (merge_all_ics_files dir).message = "No .ics files found" ∧
    (merge_all_ics_files dir).written = none ∧
    outputFileAfter prev (merge_all_ics_files dir) = prev := by
  simp [merge_all_ics_files, h, outputFileAfter]

theorem c2_no_sources_no_write_witness :
    get_all_ics_files
        (([("merged_output.ics", (none : Option VCalendar)),
           ("notes.txt", none)]).map Prod.fst) = [] ∧
    ((merge_all_ics_files [("merged_output.ics", none), ("notes.txt", none)]).cal = none ∧
     (merge_all_ics_files [("merged_output.ics", none), ("notes.txt", none)]).success = false ∧
     (merge_all_ics_files [("merged_output.ics", none), ("notes.txt", none)]).message =
       "No .ics files found" ∧
     (merge_all_ics_files [("merged_output.ics", none), ("notes.txt", none)]).written = none ∧
     outputFileAfter (some calA)
       (merge_all_ics_files [("merged_output.ics", none), ("notes.txt", none)]) = some calA) :=
  ⟨by decide,
   c2_no_sources_no_write [("merged_output.ics", none), ("notes.txt", none)]
     (some calA) (by decide)⟩

/-! ### C3 — events missing dtstart/dtend are skipped, the rest kept -/

/-- C3: a feed containing an event record that lacks `dtstart` or `dtend`
still merges successfully; the malformed record fails the admission test and
the events extracted from the merged calendar are exactly the admitted
records of the feed, normalised and tagged — the malformed one excluded,
every valid one included. -/
theorem c3_missing_field_skipped (localOff : Int) (fname : String)
    (cal : VCalendar) (e : VEvent)
    (hfn : (endsWithIcs fname && !(fname == "merged_output.ics")) = true)
    (he : e ∈ cal.events)
    (hmiss : e.dtstart = none ∨ e.dtend = none) :
    (merge_all_ics_files [(fname, some cal)]).success = true ∧
    hasBothFields e = false ∧
    ∃ m, (merge_all_ics_files [(fname, some cal)]).cal = some m ∧
      extract_events localOff m =
        (cal.events.filter hasBothFields).map
          (normalizeTagged localOff (sourceNameOf fname)) := by
  rw [merge_single fname cal hfn]
  refine ⟨rfl, ?_, ⟨_, rfl, ?_⟩⟩
  · rcases hmiss with hh | hh <;> simp [hasBothFields, hh]
  · exact extract_events_map_tag localOff (sourceNameOf fname) cal.props cal.events

theorem c3_missing_field_skipped_witness :
    ((endsWithIcs "feed.ics" && !("feed.ics" == "merged_output.ics")) = true) ∧
    evBad ∈ calFeed.events ∧
    (evBad.dtstart = none ∨ evBad.dtend = none) ∧
    ((merge_all_ics_files [("feed.ics", some calFeed)]).success = true ∧
     hasBothFields evBad = false ∧
     ∃ m, (merge_all_ics_files [("feed.ics", some calFeed)]).cal = some m ∧
       extract_events 60 m =
         (calFeed.events.filter hasBothFields).map
           (normalizeTagged 60 (sourceNameOf "feed.ics"))) :=
  ⟨by decide, by decide, by decide,
   c3_missing_field_skipped 60 "feed.ics" calFeed evBad (by decide) (by decide)
     (by decide)⟩

/-! ### C4 — a malformed source is skipped with a warning, the rest merge -/

/-- C4: when a considered source cannot be read or parsed, the merge still
completes successfully; the failing source appears in the per-source
warnings (which list exactly the unreadable considered files), and the
merged output contains every tagged event of every remaining well-formed
source. -/
theorem c4_bad_source_skipped (dir : List (String × Option VCalendar))
    (bad : String)
    (hmem : bad ∈ get_all_ics_files (dir.map Prod.fst))
    (hbad : readFile dir bad = none) :
    (merge_all_ics_files dir).success = true ∧
    (merge_all_ics_files dir).warnings =
      (get_all_ics_files (dir.map Prod.fst)).filter
        (fun f => (readFile dir f).isNone) ∧
    bad ∈ (merge_all_ics_files dir).warnings ∧
    ∃ m, (merge_all_ics_files dir).cal = some m ∧
      (merge_all_ics_files dir).written = some m ∧
      m.events =
        catLists ((get_all_ics_files (dir.map Prod.fst)).map (fileEvents dir)) ∧
      ∀ f ∈ get_all_ics_files (dir.map Prod.fst), ∀ cal,
        readFile dir f = some cal →
        ∀ e ∈ cal.events, tagEvent (sourceNameOf f) e ∈ m.events := by
  obtain ⟨hsucc, hmsg, hwarn, m, hcal, hwr, hev⟩ :=
    merge_run dir (List.ne_nil_of_mem hmem)
  refine ⟨hsucc, hwarn, ?_, ⟨m, hcal, hwr, hev, ?_⟩⟩
  · rw [hwarn]
    exact List.mem_filter.2 ⟨hmem, by simp [hbad]⟩
  · intro f hf cal hcal2 e he
    rw [hev]
    refine mem_catLists (List.mem_map_of_mem (fileEvents dir) hf) ?_
    simp [fileEvents, hcal2]
    exact ⟨e, he, rfl⟩

theorem c4_bad_source_skipped_witness :
    "bad.ics" ∈ get_all_ics_files (dirOneBad.map Prod.fst) ∧
    readFile dirOneBad "bad.ics" = none ∧
    ((merge_all_ics_files dirOneBad).success = true ∧
     (merge_all_ics_files dirOneBad).warnings =
       (get_all_ics_files (dirOneBad.map Prod.fst)).filter
         (fun f => (readFile dirOneBad f).isNone) ∧
     "bad.ics" ∈ (merge_all_ics_files dirOneBad).warnings ∧
     ∃ m, (merge_all_ics_files dirOneBad).cal = some m ∧
       (merge_all_ics_files dirOneBad).written = some m ∧
       m.events =
         catLists ((get_all_ics_files (dirOneBad.map Prod.fst)).map
           (fileEvents dirOneBad)) ∧
       ∀ f ∈ get_all_ics_files (dirOneBad.map Prod.fst), ∀ cal,
         readFile dirOneBad f = some cal →
         ∀ e ∈ cal.events, tagEvent (sourceNameOf f) e ∈ m.events) :=
  ⟨by decide, by decide,
   c4_bad_source_skipped dirOneBad "bad.ics" (by decide) (by decide)⟩

/-! ### C5 — ordering inside a day bucket of the weekly view -/

/-- C5: in every day bucket of the 7-day weekly view, every all-day event
precedes every timed event, and the timed events are in non-decreasing
order of start time. -/
theorem c5_day_bucket_order (events : List NormEvent) (week_start : Int)
    (i : Nat) (hi : i < 7) :
    (dayBucket events (week_start + (i : Int))).Pairwise dayOrder := by
  have hs := List.sorted_mergeSort dayLE_trans dayLE_total
    (events.filter (fun e => decide (eventDate e = week_start + (i : Int))))
  refine hs.imp ?_
  intro a b hab ha
  have hab2 : sortKeyFst a < sortKeyFst b ∨
      (sortKeyFst a = sortKeyFst b ∧ sortMinutes a ≤ sortMinutes b) := by
    simpa [dayLE] using hab
  have hka : sortKeyFst a = 1 := by simp [sortKeyFst, ha]
  cases hb : b.is_allday with
  | false =>
    have hkb : sortKeyFst b = 1 := by simp [sortKeyFst, hb]
    rw [hka, hkb] at hab2
    refine ⟨rfl, ?_⟩
    rcases hab2 with h | h
    · omega
    · exact h.2
  | true =>
    have hkb : sortKeyFst b = 0 := by simp [sortKeyFst, hb]
    rw [hka, hkb] at hab2
    exact absurd hab2 (by omega)

theorem c5_day_bucket_order_witness :
    (0 : Nat) < 7 ∧
    (dayBucket eventsSample ((19700 : Int) + ((0 : Nat) : Int))).Pairwise dayOrder :=
  ⟨by decide, c5_day_bucket_order eventsSample 19700 0 (by decide)⟩

/-! ### C6 — no de-duplication, events concatenated in source order -/

/-- C6: over a non-empty list of parseable sources the merge warns about
nothing and its aggregate's event list is, source by source in order, the
source's events stamped with its label; the merged event count is the sum of
the per-source counts (no de-duplication, `fileEvents` preserves each
source's count). -/
theorem c6_merge_concat (dir : List (String × Option VCalendar))
    (hne : get_all_ics_files (dir.map Prod.fst) ≠ [])
    (hok : ∀ f ∈ get_all_ics_files (dir.map Prod.fst),
      (readFile dir f).isSome = true) :
    (merge_all_ics_files dir).warnings = [] ∧
    ∃ m, (merge_all_ics_files dir).cal = some m ∧
      m.events =
        catLists ((get_all_ics_files (dir.map Prod.fst)).map (fileEvents dir)) ∧
      m.events.length =
        ((get_all_ics_files (dir.map Prod.fst)).map
          (fun f => (fileEvents dir f).length)).sum := by
  obtain ⟨hsucc, hmsg, hwarn, m, hcal, hwr, hev⟩ := merge_run dir hne
  refine ⟨?_, ⟨m, hcal, hev, ?_⟩⟩
  · rw [hwarn]
    refine List.filter_eq_nil_iff.2 ?_
    intro f hf
    have h1 := hok f hf
    cases hr : readFile dir f with
    | none => rw [hr] at h1; simp at h1
    | some c => simp [hr]
  · rw [hev, catLists_length, List.map_map]
    rfl

theorem c6_merge_concat_witness :
    get_all_ics_files (dirTwins.map Prod.fst) ≠ [] ∧
    (∀ f ∈ get_all_ics_files (dirTwins.map Prod.fst),
      (readFile dirTwins f).isSome = true) ∧
    ((merge_all_ics_files dirTwins).warnings = [] ∧
     ∃ m, (merge_all_ics_files dirTwins).cal = some m ∧
       m.events =
         catLists ((get_all_ics_files (dirTwins.map Prod.fst)).map
           (fileEvents dirTwins)) ∧
       m.events.length =
         ((get_all_ics_files (dirTwins.map Prod.fst)).map
           (fun f => (fileEvents dirTwins f).length)).sum) :=
  ⟨by decide, by decide, c6_merge_concat dirTwins (by decide) (by decide)⟩

/-! ### C7 — styling determinism -/

/-- C7: the source styling resolver is case-insensitive on known keywords —
"gmail-export" and "GMAIL-EXPORT" both resolve to the Google red — and, as a
pure function of the label (keyword table plus MD5 fallback), it returns the
same value for the same label on every invocation. -/
theorem c7_color_deterministic :
    get_source_color "gmail-export" = get_source_color "GMAIL-EXPORT" ∧
    get_source_color "unknown-feed-x" = get_source_color "unknown-feed-x" ∧
    get_source_color "gmail-export" = "#EA4335" := by
  refine ⟨?_, rfl, ?_⟩ <;> decide

/-! ### C8 — date-only end renders as the unknown-end sentinel -/

/-- C8 counterexample: for a displayed event whose `end` is present but is
not a full timestamp the rendered end time is `"??"` — not the `"??:??"`
the claim states. -/
theorem c8_end_sentinel_counterexample :
    endTimeStr evDateEnd = "??" ∧
    endTimeStr evDateEnd ≠ "??:??" ∧
    timeStr evDateEnd = "🕒 09:00 - ??" := by
  decide

/-- C8 (amended): for every event whose `end` is present but is a bare date
(on an otherwise displayed, non-all-day event) the rendered end time is the
sentinel `"??"`, and rendering is total (no error). -/
theorem c8_end_sentinel_amended (e : NormEvent) (d : Int)
    (hall : e.is_allday = false) (hend : e.end_ = DTValue.date d) :
    endTimeStr e = "??" ∧
    timeStr e = "🕒 " ++ startTimeStr e ++ " - " ++ "??" := by
  constructor
  · simp [endTimeStr, hend]
  · simp [timeStr, hall, endTimeStr, hend]

theorem c8_end_sentinel_amended_witness :
    evDateEnd.is_allday = false ∧
    evDateEnd.end_ = DTValue.date 19701 ∧
    (endTimeStr evDateEnd = "??" ∧
     timeStr evDateEnd = "🕒 " ++ startTimeStr evDateEnd ++ " - " ++ "??") :=
  ⟨by decide, by decide,
   c8_end_sentinel_amended evDateEnd 19701 (by decide) (by decide)⟩

/-! ### C9 — the success message's count -/

/-- C9 counterexample: with one parseable and one malformed source the merge
reports "Successfully merged 2 calendar file(s)" although only one source
was successfully merged — the message counts all considered files, not the
successfully merged ones. -/
theorem c9_success_count_counterexample :
    specSuccessfulCount dirOneBad = 1 ∧
    (merge_all_ics_files dirOneBad).warnings = ["bad.ics"] ∧
    (merge_all_ics_files dirOneBad).message =
      "Successfully merged 2 calendar file(s)" ∧
    (merge_all_ics_files dirOneBad).message ≠
      successMessage (specSuccessfulCount dirOneBad) := by
  decide

/-- C9 (amended): over a non-empty list of considered sources the success
message reports the count of ALL considered `.ics` files — including those
that failed to parse — not the count of successfully merged sources. -/
theorem c9_success_count_amended (dir : List (String × Option VCalendar))
    (h : get_all_ics_files (dir.map Prod.fst) ≠ []) :
    (merge_all_ics_files dir).message =
      successMessage (get_all_ics_files (dir.map Prod.fst)).length :=
  (merge_run dir h).2.1

theorem c9_success_count_amended_witness :
    get_all_ics_files (dirOneBad.map Prod.fst) ≠ [] ∧
    (merge_all_ics_files dirOneBad).message =
      successMessage (get_all_ics_files (dirOneBad.map Prod.fst)).length :=
  ⟨by decide, c9_success_count_amended dirOneBad (by decide)⟩

/-! ### C10 — the merge never ingests its own output -/

/-- C10: the source list considered by the merge never contains the merged
output file `merged_output.ics`, whatever the directory listing holds; in
particular adding the output file anywhere in the listing leaves the
considered sources unchanged, so repeated merges do not accumulate events
from previous cycles. -/
theorem c10_output_excluded (names l₁ l₂ : List String) :
    "merged_output.ics" ∉ get_all_ics_files names ∧
    get_all_ics_files (l₁ ++ "merged_output.ics" :: l₂) =
      get_all_ics_files (l₁ ++ l₂) := by
  have hp : (endsWithIcs "merged_output.ics" &&
      !("merged_output.ics" == "merged_output.ics")) = false := by decide
  constructor
  · intro hmem
    exact absurd (List.mem_filter.1 hmem).2 (by decide)
  · simp [get_all_ics_files, List.filter_append, List.filter_cons, hp]

end Planner
